import Mathlib

/-!
Verification of `civis/io/_databases.py` (query_civis, transfer_table) against
its specification.  The two operations are embedded as pure functions over an
explicit client environment; every remote call is recorded as an event in a
trace, and fallible remote calls are reflected by `Except`.
-/

namespace Civis

/-- A Python value as it appears in the arguments of these functions:
either `None`, an integer, or a string. -/
inductive PyVal where
  | pynone : PyVal
  | pyint : Int → PyVal
  | pystr : String → PyVal
deriving DecidableEq, Repr

/-- Python truthiness for the values above: `None`, `0` and `""` are falsy. -/
def PyVal.truthy : PyVal → Bool
  | PyVal.pynone => false
  | PyVal.pyint n => decide (n ≠ 0)
  | PyVal.pystr s => decide (s ≠ "")

/-- A connection descriptor as built by `transfer_table`:
`{'remote_host_id': ..., 'credential_id': ...}`. -/
structure ConnDesc where
  remote_host_id : Nat
  credential_id : PyVal
deriving DecidableEq, Repr

/-- The open-ended bag of advanced options (`**advanced_options`):
a mapping of string keys to loosely typed values. -/
abbrev AdvOpts := List (String × PyVal)

/-- The remote calls a submission can fail in. -/
inductive Step where
  | submitQuery : Step
  | createJob : Step
  | configureSync : Step
  | startRun : Step
deriving DecidableEq, Repr

/-- Error taxonomy of the spec.  `validationError` is never produced by the
code under `src/`; it is present so that claims about it can be stated. -/
inductive CivisError where
  | validationError : CivisError
  | notFound : PyVal → CivisError
  | remoteRequestError : Step → CivisError
deriving DecidableEq, Repr

/-- One observable remote interaction of the client. -/
inductive Ev where
  | getDatabaseId : PyVal → Ev
  | readDefaultCred : Ev
  | queriesPost : Nat → String → Int → PyVal → Ev
  | importsPost : String → String → Bool → ConnDesc → ConnDesc → Ev
  | postSyncs : Nat → String → String → AdvOpts → Ev
  | postRuns : Nat → Ev
deriving DecidableEq, Repr

/-- Which remote status probe a returned future is built over. -/
inductive ProbeId where
  | queriesGet : ProbeId
  | importsGetFilesRuns : ProbeId
deriving DecidableEq, Repr

/-- The data a `PollableResult` is constructed with: a probe, a tuple of
arguments fixed at construction, and a polling interval. -/
structure PollableResult where
  poller : ProbeId
  poller_args : List Nat
  polling_interval : Nat
deriving DecidableEq, Repr

/-- Stand-in for `civis.polling._DEFAULT_POLLING_INTERVAL` (the module it
lives in is outside `src/`); its concrete value is irrelevant here. -/
def DEFAULT_POLLING_INTERVAL : Nat := 15

/-- The environment providing the behaviour of the remote platform for one
submission: how database references resolve, the default credential, and the
outcome of each of the submission endpoints (`Option.none` meaning the call
fails remotely). -/
structure ClientEnv where
  dbId : PyVal → Option Nat
  defaultCred : PyVal
  queriesPostResult : Option Nat
  importsPostResult : Option Nat
  postSyncsOk : Bool
  postRunsResult : Option Nat
  randomName : String

/-- `credential_id or client.default_credential`: the caller value when
truthy, otherwise the default credential. -/
def resolveCred (c defaultCred : PyVal) : PyVal :=
  if c.truthy then c else defaultCred

/-- The trace of a `x or client.default_credential` evaluation: the default
credential is read exactly when `x` is falsy. -/
def credReadTrace (c : PyVal) : List Ev :=
  if c.truthy then [] else [Ev.readDefaultCred]

/-- Modelled from the spec: `civis._utils.maybe_get_random_name` is not under
`src/`; per the spec, an omitted job name is replaced by a generated name
(supplied here by the environment). -/
def maybe_get_random_name (env : ClientEnv) : Option String → String
  | Option.some n => n
  | Option.none => env.randomName

/-- Shallow embedding of `query_civis`: resolve the database reference,
resolve the credential, post the query, and wrap the response id in a
`PollableResult` over `client.queries.get`.  Returns the outcome together
with the trace of remote interactions. -/
def query_civis (env : ClientEnv) (sql : String) (database : PyVal)
    (credential_id : PyVal := PyVal.pynone) (preview_rows : Int := 10)
    (polling_interval : Nat := DEFAULT_POLLING_INTERVAL) :
    Except CivisError PollableResult × List Ev :=
  let t1 : List Ev := [Ev.getDatabaseId database]
  match env.dbId database with
  | Option.none => (Except.error (CivisError.notFound database), t1)
  | Option.some database_id =>
    let cred_id := resolveCred credential_id env.defaultCred
    let t2 := t1 ++ credReadTrace credential_id
    let t3 := t2 ++ [Ev.queriesPost database_id sql preview_rows cred_id]
    match env.queriesPostResult with
    | Option.none =>
        (Except.error (CivisError.remoteRequestError Step.submitQuery), t3)
    | Option.some respId =>
        (Except.ok { poller := ProbeId.queriesGet, poller_args := [respId],
                     polling_interval := polling_interval }, t3)

/-- Shallow embedding of `transfer_table`: resolve both credentials, pick the
job name, resolve both database references, then in order create the job
(`imports.post`), configure the sync (`imports.post_syncs`) and start a run
(`imports.post_runs`); wrap job id and run id in a `PollableResult` over
`client.imports.get_files_runs`. -/
def transfer_table (env : ClientEnv) (source_db dest_db : PyVal)
    (source_table dest_table : String)
    (job_name : Option String := Option.none)
    (source_credential_id : PyVal := PyVal.pynone)
    (dest_credential_id : PyVal := PyVal.pynone)
    (polling_interval : Nat := DEFAULT_POLLING_INTERVAL)
    (advanced_options : AdvOpts := []) :
    Except CivisError PollableResult × List Ev :=
  let source_cred_id := resolveCred source_credential_id env.defaultCred
  let dest_cred_id := resolveCred dest_credential_id env.defaultCred
  let ta := credReadTrace source_credential_id ++ credReadTrace dest_credential_id
  let name := maybe_get_random_name env job_name
  let tb := ta ++ [Ev.getDatabaseId source_db]
  match env.dbId source_db with
  | Option.none => (Except.error (CivisError.notFound source_db), tb)
  | Option.some source_host_id =>
    let tc := tb ++ [Ev.getDatabaseId dest_db]
    match env.dbId dest_db with
    | Option.none => (Except.error (CivisError.notFound dest_db), tc)
    | Option.some dest_host_id =>
      let source : ConnDesc :=
        { remote_host_id := source_host_id, credential_id := source_cred_id }
      let destination : ConnDesc :=
        { remote_host_id := dest_host_id, credential_id := dest_cred_id }
      let td := tc ++ [Ev.importsPost name "Dbsync" true source destination]
      match env.importsPostResult with
      | Option.none =>
          (Except.error (CivisError.remoteRequestError Step.createJob), td)
      | Option.some job_id =>
        let te := td ++ [Ev.postSyncs job_id source_table dest_table
                           advanced_options]
        match env.postSyncsOk with
        | false =>
            (Except.error (CivisError.remoteRequestError Step.configureSync),
             te)
        | true =>
          let tf := te ++ [Ev.postRuns job_id]
          match env.postRunsResult with
          | Option.none =>
              (Except.error (CivisError.remoteRequestError Step.startRun), tf)
          | Option.some run_id =>
              (Except.ok { poller := ProbeId.importsGetFilesRuns,
                           poller_args := [job_id, run_id],
                           polling_interval := polling_interval }, tf)

/-- Is an event one of the submission calls (query-job creation, transfer-job
creation, sync configuration, run start)? -/
def isSubmission : Ev → Bool
  | Ev.queriesPost _ _ _ _ => true
  | Ev.importsPost _ _ _ _ _ => true
  | Ev.postSyncs _ _ _ _ => true
  | Ev.postRuns _ => true
  | _ => false

/-- The transfer step an event corresponds to, if any. -/
def stepOf : Ev → Option Step
  | Ev.importsPost _ _ _ _ _ => Option.some Step.createJob
  | Ev.postSyncs _ _ _ _ => Option.some Step.configureSync
  | Ev.postRuns _ => Option.some Step.startRun
  | _ => Option.none

/-- The sequence of transfer steps performed in a trace. -/
def stepTrace (t : List Ev) : List Step := t.filterMap stepOf

/-! ## Polling model (spec-modelled)

`PollableResult`'s polling behaviour lives in `civis.polling`, which is not
under `src/`; it is modelled here from the spec. -/

/-- A remote job state as reported by a status probe. -/
inductive JobState where
  | queued : JobState
  | running : JobState
  | succeeded : JobState
  | failed : JobState
  | cancelled : JobState
deriving DecidableEq, Repr

/-- Terminal states: succeeded, failed or cancelled. -/
def JobState.isTerminal : JobState → Bool
  | JobState.succeeded => true
  | JobState.failed => true
  | JobState.cancelled => true
  | _ => false

/-- A status snapshot returned by a probe: a state plus a result payload. -/
structure Snapshot where
  state : JobState
  payload : Nat
deriving DecidableEq, Repr

/-- The mutable state of a pollable future: the last cached snapshot and the
number of probe invocations made so far. -/
structure PollerState where
  cache : Option Snapshot
  invocations : Nat
deriving DecidableEq, Repr

/-- The state of a freshly constructed future: nothing cached, no probe
invocations yet. -/
def initPoller : PollerState :=
  { cache := Option.none, invocations := 0 }

/-- Modelled from the spec: the non-blocking "poll once" operation of
`civis.polling.PollableResult` (not under `src/`).  If a terminal snapshot is
cached, it is returned unchanged with no probe invocation; otherwise the
probe is invoked once (the probe is modelled as the sequence of snapshots its
successive invocations would return) and the fresh snapshot is cached. -/
def pollOnce (probe : Nat → Snapshot) (s : PollerState) :
    PollerState × Snapshot :=
  match s.cache with
  | Option.some snap =>
    if snap.state.isTerminal then (s, snap)
    else
      let fresh := probe s.invocations
      ({ cache := Option.some fresh, invocations := s.invocations + 1 }, fresh)
  | Option.none =>
      let fresh := probe s.invocations
      ({ cache := Option.some fresh, invocations := s.invocations + 1 }, fresh)

/-- Modelled from the spec: the "done" check of
`civis.polling.PollableResult` (not under `src/`) — true exactly when the
cached snapshot is terminal; it never invokes the probe. -/
def isDone (s : PollerState) : Bool :=
  match s.cache with
  | Option.some snap => snap.state.isTerminal
  | Option.none => false

/-- Modelled from the spec: the blocking "result" operation of
`civis.polling.PollableResult` (not under `src/`) — poll repeatedly until a
terminal snapshot is observed.  The unbounded blocking loop is modelled with
fuel; `Option.none` means the fuel ran out before a terminal state. -/
def resultLoop (probe : Nat → Snapshot) :
    Nat → PollerState → Option (PollerState × Snapshot)
  | 0, _ => Option.none
  | Nat.succ fuel, s =>
    let p := pollOnce probe s
    if p.2.state.isTerminal then Option.some p
    else resultLoop probe fuel p.1

/-! ## Concrete environments used as witnesses -/

/-- A platform environment in which every remote call succeeds and exactly
two database names resolve. -/
def envOK : ClientEnv :=
  { dbId := fun r =>
      match r with
      | PyVal.pystr "warehouse" => Option.some 11
      | PyVal.pystr "lake" => Option.some 22
      | _ => Option.none,
    defaultCred := PyVal.pyint 99,
    queriesPostResult := Option.some 7,
    importsPostResult := Option.some 41,
    postSyncsOk := true,
    postRunsResult := Option.some 5,
    randomName := "generated" }

/-- Like `envOK` but the sync-configuration call fails. -/
def envSyncFail : ClientEnv :=
  { envOK with postSyncsOk := false }

/-- Like `envOK` but the job-creation call fails. -/
def envCreateFail : ClientEnv :=
  { envOK with importsPostResult := Option.none }

/-- A default-credential read contributes no transfer step to a trace. -/
theorem filterMap_stepOf_credReadTrace (c : PyVal) :
    List.filterMap stepOf (credReadTrace c) = [] := by
  unfold credReadTrace
  split <;> simp [stepOf]

/-- A default-credential read is not a submission call. -/
theorem filter_isSubmission_credReadTrace (c : PyVal) :
    List.filter isSubmission (credReadTrace c) = [] := by
  unfold credReadTrace
  split <;> simp [isSubmission]

/-- Concrete terminal snapshot used in witnesses. -/
def termSnap : Snapshot := { state := JobState.succeeded, payload := 42 }

/-- Concrete poller state that has already observed `termSnap`. -/
def termState : PollerState := { cache := Option.some termSnap, invocations := 3 }

/-- A probe that never reports a terminal state, used in witnesses to show it
is not consulted after a terminal snapshot is cached. -/
def constProbe : Nat → Snapshot := fun _ => { state := JobState.queued, payload := 0 }

/-- Membership in the trace of a credential resolution: only a
default-credential read, and only when the caller value is falsy. -/
theorem mem_credReadTrace_iff (e : Ev) (c : PyVal) :
    e ∈ credReadTrace c ↔ (c.truthy = false ∧ e = Ev.readDefaultCred) := by
  unfold credReadTrace
  split <;> simp_all

/-- Number of default-credential reads a single credential resolution
contributes to the trace. -/
theorem count_readDefaultCred_credReadTrace (c : PyVal) :
    (credReadTrace c).count Ev.readDefaultCred =
      if c.truthy then 0 else 1 := by
  unfold credReadTrace
  split <;> simp

/-! ## Theorems -/

/-- C2: once a pollable future has a terminal snapshot cached, a further
"poll once" returns the state unchanged with the identical cached snapshot
(in particular zero further probe invocations: the invocation count is
unchanged and the outcome does not depend on the probe at all), "done" is
true without probing, and the blocking "result" returns the cached snapshot
immediately for any positive fuel. -/
theorem c2_terminal_caching (probe : Nat → Snapshot) (s : PollerState)
    (snap : Snapshot) (hc : s.cache = Option.some snap)
    (ht : snap.state.isTerminal = true) :
    pollOnce probe s = (s, snap) ∧ isDone s = true ∧
    (∀ probe2 : Nat → Snapshot, pollOnce probe2 s = pollOnce probe s) ∧
    ∀ fuel : Nat, resultLoop probe (fuel + 1) s = Option.some (s, snap) := by
  have h1 : pollOnce probe s = (s, snap) := by
    simp [pollOnce, hc, ht]
  refine ⟨h1, ?_, ?_, ?_⟩
  · simp [isDone, hc, ht]
  · intro probe2
    simp [pollOnce, hc, ht]
  · intro fuel
    simp [resultLoop, h1, ht]

/-- C2 (witness): instantiation at a concrete terminal state and a probe
that would report `queued` if it were (wrongly) consulted. -/
theorem c2_terminal_caching_witness :
    pollOnce constProbe termState = (termState, termSnap) ∧
    isDone termState = true ∧
    resultLoop constProbe 5 termState = Option.some (termState, termSnap) := by
  have h := c2_terminal_caching constProbe termState termSnap rfl rfl
  exact ⟨h.1, h.2.1, h.2.2.2 4⟩

/-- C3: the submission steps performed by `transfer_table` always form an
initial segment of create-job, configure-sync, start-run (so the order is
strict and a failure cuts off all later steps); in particular when the
result is a remote-request error at configure-sync, the job-creation call
was made and the start-run call never was. -/
theorem c3_transfer_step_order (env : ClientEnv) (source_db dest_db : PyVal)
    (source_table dest_table : String) (job_name : Option String)
    (sc dc : PyVal) (iv : Nat) (adv : AdvOpts) :
    (stepTrace (transfer_table env source_db dest_db source_table dest_table
        job_name sc dc iv adv).2 = [] ∨
     stepTrace (transfer_table env source_db dest_db source_table dest_table
        job_name sc dc iv adv).2 = [Step.createJob] ∨
     stepTrace (transfer_table env source_db dest_db source_table dest_table
        job_name sc dc iv adv).2 = [Step.createJob, Step.configureSync] ∨
     stepTrace (transfer_table env source_db dest_db source_table dest_table
        job_name sc dc iv adv).2 =
       [Step.createJob, Step.configureSync, Step.startRun]) ∧
    ((transfer_table env source_db dest_db source_table dest_table job_name
        sc dc iv adv).1 =
        Except.error (CivisError.remoteRequestError Step.configureSync) →
      stepTrace (transfer_table env source_db dest_db source_table dest_table
        job_name sc dc iv adv).2 = [Step.createJob, Step.configureSync]) := by
  unfold transfer_table
  cases hs : env.dbId source_db <;>
    cases hd2 : env.dbId dest_db <;>
      cases hj : env.importsPostResult <;>
        cases hps : env.postSyncsOk <;>
          cases hr : env.postRunsResult <;>
            simp [stepTrace, stepOf, List.filterMap_append,
              filterMap_stepOf_credReadTrace]

/-- C3 (witness): in an environment where configure-sync fails, the
performed steps are exactly create-job then configure-sync. -/
theorem c3_transfer_step_order_witness :
    stepTrace (transfer_table envSyncFail (PyVal.pystr "warehouse")
        (PyVal.pystr "lake") "s.t" "d.t" Option.none PyVal.pynone PyVal.pynone
        3 []).2 = [Step.createJob, Step.configureSync] :=
  (c3_transfer_step_order envSyncFail (PyVal.pystr "warehouse")
      (PyVal.pystr "lake") "s.t" "d.t" Option.none PyVal.pynone PyVal.pynone
      3 []).2 rfl

/-- C4: when one of the three sequential remote calls of `transfer_table`
fails, the surfaced error is a remote-request error naming exactly the step
that failed: create-job, configure-sync or start-run. -/
theorem c4_error_identifies_step (env : ClientEnv) (source_db dest_db : PyVal)
    (source_table dest_table : String) (job_name : Option String)
    (sc dc : PyVal) (iv : Nat) (adv : AdvOpts) (a b : Nat)
    (hs : env.dbId source_db = Option.some a)
    (hd : env.dbId dest_db = Option.some b) :
    (env.importsPostResult = Option.none →
      (transfer_table env source_db dest_db source_table dest_table job_name
          sc dc iv adv).1 =
        Except.error (CivisError.remoteRequestError Step.createJob)) ∧
    (∀ j, env.importsPostResult = Option.some j → env.postSyncsOk = false →
      (transfer_table env source_db dest_db source_table dest_table job_name
          sc dc iv adv).1 =
        Except.error (CivisError.remoteRequestError Step.configureSync)) ∧
    (∀ j, env.importsPostResult = Option.some j → env.postSyncsOk = true →
      env.postRunsResult = Option.none →
      (transfer_table env source_db dest_db source_table dest_table job_name
          sc dc iv adv).1 =
        Except.error (CivisError.remoteRequestError Step.startRun)) := by
  refine ⟨?_, ?_, ?_⟩
  · intro hj
    simp [transfer_table, hs, hd, hj]
  · intro j hj hps
    simp [transfer_table, hs, hd, hj, hps]
  · intro j hj hps hr
    simp [transfer_table, hs, hd, hj, hps, hr]

/-- C4 (witness): in an environment where job creation fails, the error
names the create-job step. -/
theorem c4_error_identifies_step_witness :
    (transfer_table envCreateFail (PyVal.pystr "warehouse")
        (PyVal.pystr "lake") "s.t" "d.t" Option.none PyVal.pynone PyVal.pynone
        3 []).1 =
      Except.error (CivisError.remoteRequestError Step.createJob) :=
  (c4_error_identifies_step envCreateFail (PyVal.pystr "warehouse")
      (PyVal.pystr "lake") "s.t" "d.t" Option.none PyVal.pynone PyVal.pynone
      3 [] 11 22 rfl rfl).1 rfl

/-- C1 (counterexample): calling `query_civis` with `preview_rows = 101`
(above the documented platform limit of 100) does not raise any
`validationError`; the submission succeeds and the remote query-post call is
made, carrying 101. -/
theorem c1_counterexample :
    (query_civis envOK "select 1" (PyVal.pystr "warehouse") PyVal.pynone
        101 3).1 =
      Except.ok { poller := ProbeId.queriesGet, poller_args := [7],
                  polling_interval := 3 } ∧
    Ev.queriesPost 11 "select 1" 101 (PyVal.pyint 99) ∈
      (query_civis envOK "select 1" (PyVal.pystr "warehouse") PyVal.pynone
          101 3).2 :=
  ⟨rfl, by decide⟩

/-- C1 (amended): `query_civis` performs no client-side validation of
`preview_rows`; it never produces a `validationError`, and whatever value the
caller supplies — including values above 100 — is forwarded verbatim in the
query submission call. -/
theorem c1_no_preview_validation (env : ClientEnv) (sql : String)
    (database credential_id : PyVal) (preview_rows : Int) (interval : Nat) :
    (query_civis env sql database credential_id preview_rows interval).1 ≠
      Except.error CivisError.validationError ∧
    ∀ d s pr c,
      Ev.queriesPost d s pr c ∈
        (query_civis env sql database credential_id preview_rows interval).2 →
      pr = preview_rows := by
  cases hd : env.dbId database with
  | none =>
      by_cases hc : credential_id.truthy <;>
        simp [query_civis, hd, credReadTrace, hc]
  | some d0 =>
      cases hq : env.queriesPostResult with
      | none =>
          by_cases hc : credential_id.truthy <;>
            simp [query_civis, hd, hq, credReadTrace, hc] <;>
            intro d s pr c h <;> simp_all
      | some rid =>
          by_cases hc : credential_id.truthy <;>
            simp [query_civis, hd, hq, credReadTrace, hc] <;>
            intro d s pr c h <;> simp_all

/-- C1 (amended, witness): instantiation at a successful environment with
`preview_rows = 101`. -/
theorem c1_no_preview_validation_witness :
    (query_civis envOK "select 1" (PyVal.pystr "warehouse") PyVal.pynone
        101 3).1 ≠
      Except.error CivisError.validationError ∧ (101 : Int) = 101 :=
  ⟨(c1_no_preview_validation envOK "select 1" (PyVal.pystr "warehouse")
      PyVal.pynone 101 3).1,
   (c1_no_preview_validation envOK "select 1" (PyVal.pystr "warehouse")
      PyVal.pynone 101 3).2 11 "select 1" 101 (PyVal.pyint 99) (by decide)⟩

/-- C6: on a successful call, `query_civis` makes exactly one remote
submission call — the query-post creating the job — and returns a future
whose probe is the query-status endpoint applied to that job's identifier,
fixed at construction. -/
theorem c6_query_single_submission (env : ClientEnv) (sql : String)
    (database credential_id : PyVal) (preview_rows : Int) (interval : Nat)
    (d rid : Nat) (hd : env.dbId database = Option.some d)
    (hq : env.queriesPostResult = Option.some rid) :
    (query_civis env sql database credential_id preview_rows interval).1 =
      Except.ok { poller := ProbeId.queriesGet, poller_args := [rid],
                  polling_interval := interval } ∧
    (query_civis env sql database credential_id preview_rows
        interval).2.filter isSubmission =
      [Ev.queriesPost d sql preview_rows
        (resolveCred credential_id env.defaultCred)] := by
  by_cases hc : credential_id.truthy <;>
    simp [query_civis, hd, hq, credReadTrace, hc, isSubmission]

/-- C6 (witness): instantiation at a successful environment. -/
theorem c6_query_single_submission_witness :
    (query_civis envOK "q" (PyVal.pystr "warehouse") PyVal.pynone 10 3).1 =
      Except.ok { poller := ProbeId.queriesGet, poller_args := [7],
                  polling_interval := 3 } ∧
    (query_civis envOK "q" (PyVal.pystr "warehouse") PyVal.pynone
        10 3).2.filter isSubmission =
      [Ev.queriesPost 11 "q" 10 (resolveCred PyVal.pynone envOK.defaultCred)] :=
  c6_query_single_submission envOK "q" (PyVal.pystr "warehouse") PyVal.pynone
    10 3 11 7 rfl rfl

/-- C10: when `preview_rows` is omitted, `query_civis` submits the query with
a preview-row count of exactly 10. -/
theorem c10_default_preview_rows (env : ClientEnv) (sql : String)
    (database credential_id : PyVal) (d : Nat)
    (hd : env.dbId database = Option.some d) :
    Ev.queriesPost d sql 10 (resolveCred credential_id env.defaultCred) ∈
      (query_civis env sql database credential_id).2 := by
  by_cases hc : credential_id.truthy <;>
    cases hq : env.queriesPostResult <;>
      simp [query_civis, hd, hq, credReadTrace, hc]

/-- C10 (witness): instantiation at a successful environment. -/
theorem c10_default_preview_rows_witness :
    Ev.queriesPost 11 "q" 10 (resolveCred PyVal.pynone envOK.defaultCred) ∈
      (query_civis envOK "q" (PyVal.pystr "warehouse") PyVal.pynone).2 :=
  c10_default_preview_rows envOK "q" (PyVal.pystr "warehouse") PyVal.pynone
    11 rfl

/-- C5: when a database reference fails to resolve, `query_civis` and
`transfer_table` surface a not-found error and make no submission call
whatsoever (no query-job creation, no transfer-job creation, no sync
configuration, no run start). -/
theorem c5_notfound_no_submission (env : ClientEnv) (sql : String)
    (database credential_id : PyVal) (preview_rows : Int) (iv : Nat)
    (source_db dest_db : PyVal) (source_table dest_table : String)
    (job_name : Option String) (sc dc : PyVal) (adv : AdvOpts) :
    (env.dbId database = Option.none →
      (query_civis env sql database credential_id preview_rows iv).1 =
        Except.error (CivisError.notFound database) ∧
      (query_civis env sql database credential_id preview_rows iv).2.filter
        isSubmission = []) ∧
    (env.dbId source_db = Option.none →
      (transfer_table env source_db dest_db source_table dest_table job_name
          sc dc iv adv).1 = Except.error (CivisError.notFound source_db) ∧
      (transfer_table env source_db dest_db source_table dest_table job_name
          sc dc iv adv).2.filter isSubmission = []) ∧
    (∀ a, env.dbId source_db = Option.some a →
      env.dbId dest_db = Option.none →
      (transfer_table env source_db dest_db source_table dest_table job_name
          sc dc iv adv).1 = Except.error (CivisError.notFound dest_db) ∧
      (transfer_table env source_db dest_db source_table dest_table job_name
          sc dc iv adv).2.filter isSubmission = []) := by
  refine ⟨?_, ?_, ?_⟩
  · intro h
    simp [query_civis, h, List.filter_append,
      filter_isSubmission_credReadTrace, isSubmission]
  · intro h
    simp [transfer_table, h, List.filter_append,
      filter_isSubmission_credReadTrace, isSubmission]
  · intro a ha hb
    simp [transfer_table, ha, hb, List.filter_append,
      filter_isSubmission_credReadTrace, isSubmission]

/-- C5 (witness): instantiation with an unknown database name for the query
and for the transfer destination. -/
theorem c5_notfound_no_submission_witness :
    ((query_civis envOK "q" (PyVal.pystr "nonexistent_db") PyVal.pynone
        10 3).1 =
      Except.error (CivisError.notFound (PyVal.pystr "nonexistent_db")) ∧
     (query_civis envOK "q" (PyVal.pystr "nonexistent_db") PyVal.pynone
        10 3).2.filter isSubmission = []) ∧
    ((transfer_table envOK (PyVal.pystr "warehouse")
        (PyVal.pystr "nonexistent_db") "s.t" "d.t" Option.none PyVal.pynone
        PyVal.pynone 3 []).1 =
      Except.error (CivisError.notFound (PyVal.pystr "nonexistent_db")) ∧
     (transfer_table envOK (PyVal.pystr "warehouse")
        (PyVal.pystr "nonexistent_db") "s.t" "d.t" Option.none PyVal.pynone
        PyVal.pynone 3 []).2.filter isSubmission = []) :=
  ⟨(c5_notfound_no_submission envOK "q" (PyVal.pystr "nonexistent_db")
      PyVal.pynone 10 3 (PyVal.pystr "warehouse")
      (PyVal.pystr "nonexistent_db") "s.t" "d.t" Option.none PyVal.pynone
      PyVal.pynone []).1 rfl,
   (c5_notfound_no_submission envOK "q" (PyVal.pystr "nonexistent_db")
      PyVal.pynone 10 3 (PyVal.pystr "warehouse")
      (PyVal.pystr "nonexistent_db") "s.t" "d.t" Option.none PyVal.pynone
      PyVal.pynone []).2.2 11 rfl rfl⟩

/-- C7 (counterexample): with both credentials omitted, `transfer_table`
reads the default credential twice in one submission, not once. -/
theorem c7_counterexample :
    ((transfer_table envOK (PyVal.pystr "warehouse") (PyVal.pystr "lake")
        "s.t" "d.t" Option.none PyVal.pynone PyVal.pynone 3 []).2.count
      Ev.readDefaultCred = 2) ∧ 2 ≠ 1 :=
  ⟨by decide, by decide⟩

/-- C7 (amended): the default credential is read exactly once per omitted
credential reference, at submission time: `query_civis` reads it once when
its credential is falsy (and not at all otherwise), and `transfer_table`
reads it independently for the source and destination credentials — so up to
twice per submission. -/
theorem c7_default_cred_reads (env : ClientEnv) (sql : String)
    (database credential_id : PyVal) (preview_rows : Int) (iv : Nat) (d : Nat)
    (hd : env.dbId database = Option.some d)
    (source_db dest_db : PyVal) (source_table dest_table : String)
    (job_name : Option String) (sc dc : PyVal) (adv : AdvOpts) :
    ((query_civis env sql database credential_id preview_rows iv).2.count
        Ev.readDefaultCred = if credential_id.truthy then 0 else 1) ∧
    ((transfer_table env source_db dest_db source_table dest_table job_name
        sc dc iv adv).2.count Ev.readDefaultCred =
      (if sc.truthy then 0 else 1) + (if dc.truthy then 0 else 1)) := by
  constructor
  · cases hq : env.queriesPostResult <;>
      simp [query_civis, hd, hq, List.count_append,
        count_readDefaultCred_credReadTrace, List.count_cons, List.count_nil]
  · cases hs : env.dbId source_db <;>
      cases hd2 : env.dbId dest_db <;>
        cases hj : env.importsPostResult <;>
          cases hps : env.postSyncsOk <;>
            cases hr : env.postRunsResult <;>
              simp [transfer_table, hs, hd2, hj, hps, hr, List.count_append,
                count_readDefaultCred_credReadTrace, List.count_cons,
                List.count_nil]

/-- C7 (amended, witness): with credentials omitted, one default-credential
read for the query submission and two for the transfer submission. -/
theorem c7_default_cred_reads_witness :
    ((query_civis envOK "q" (PyVal.pystr "warehouse") PyVal.pynone
        10 3).2.count Ev.readDefaultCred = 1) ∧
    ((transfer_table envOK (PyVal.pystr "warehouse") (PyVal.pystr "lake")
        "s.t" "d.t" Option.none PyVal.pynone PyVal.pynone 3 []).2.count
      Ev.readDefaultCred = 2) := by
  have h := c7_default_cred_reads envOK "q" (PyVal.pystr "warehouse")
    PyVal.pynone 10 3 11 rfl (PyVal.pystr "warehouse") (PyVal.pystr "lake")
    "s.t" "d.t" Option.none PyVal.pynone PyVal.pynone []
  simpa using h

/-- C8: the advanced-options mapping is forwarded verbatim to the
configure-sync call: the sync-configuration event carries exactly the
caller's mapping together with the two table paths, and every
sync-configuration event in the trace carries the mapping unaltered. -/
theorem c8_advanced_options_verbatim (env : ClientEnv)
    (source_db dest_db : PyVal) (source_table dest_table : String)
    (job_name : Option String) (sc dc : PyVal) (iv : Nat) (adv : AdvOpts)
    (a b j : Nat) (hs : env.dbId source_db = Option.some a)
    (hd : env.dbId dest_db = Option.some b)
    (hj : env.importsPostResult = Option.some j) :
    Ev.postSyncs j source_table dest_table adv ∈
      (transfer_table env source_db dest_db source_table dest_table job_name
        sc dc iv adv).2 ∧
    ∀ j2 s2 d2 o2,
      Ev.postSyncs j2 s2 d2 o2 ∈
        (transfer_table env source_db dest_db source_table dest_table
          job_name sc dc iv adv).2 →
      o2 = adv ∧ s2 = source_table ∧ d2 = dest_table := by
  refine ⟨?_, ?_⟩ <;>
    cases hps : env.postSyncsOk <;>
      cases hr : env.postRunsResult <;>
        simp [transfer_table, hs, hd, hj, hps, hr, mem_credReadTrace_iff] <;>
          (intro j2 s2 d2 o2 h; simp_all)

/-- C8 (witness): a concrete options bag arrives verbatim at the
configure-sync call. -/
theorem c8_advanced_options_verbatim_witness :
    Ev.postSyncs 41 "s.t" "d.t" [("max_errors", PyVal.pyint 5)] ∈
      (transfer_table envOK (PyVal.pystr "warehouse") (PyVal.pystr "lake")
        "s.t" "d.t" Option.none PyVal.pynone PyVal.pynone 3
        [("max_errors", PyVal.pyint 5)]).2 :=
  (c8_advanced_options_verbatim envOK (PyVal.pystr "warehouse")
      (PyVal.pystr "lake") "s.t" "d.t" Option.none PyVal.pynone PyVal.pynone
      3 [("max_errors", PyVal.pyint 5)] 11 22 41 rfl rfl rfl).1

/-- C9: credential defaulting is by Python truthiness, not by omission: for
any falsy credential value (`None`, `0`, `""`) `query_civis` submits with the
default credential, and `transfer_table` does the same independently for the
source and destination credentials. -/
theorem c9_falsy_credential_defaulting (env : ClientEnv) (sql : String)
    (database credential_id : PyVal) (preview_rows : Int) (iv : Nat) (d : Nat)
    (hd : env.dbId database = Option.some d)
    (hfalsy : credential_id.truthy = false)
    (source_db dest_db : PyVal) (source_table dest_table : String)
    (job_name : Option String) (sc dc : PyVal) (adv : AdvOpts)
    (a b : Nat) (hsa : env.dbId source_db = Option.some a)
    (hdb : env.dbId dest_db = Option.some b)
    (hsf : sc.truthy = false) (hdf : dc.truthy = false) :
    Ev.queriesPost d sql preview_rows env.defaultCred ∈
      (query_civis env sql database credential_id preview_rows iv).2 ∧
    Ev.importsPost (maybe_get_random_name env job_name) "Dbsync" true
        { remote_host_id := a, credential_id := env.defaultCred }
        { remote_host_id := b, credential_id := env.defaultCred } ∈
      (transfer_table env source_db dest_db source_table dest_table job_name
        sc dc iv adv).2 := by
  constructor
  · cases hq : env.queriesPostResult <;>
      simp [query_civis, hd, hq, resolveCred, hfalsy, credReadTrace]
  · cases hj : env.importsPostResult <;>
      cases hps : env.postSyncsOk <;>
        cases hr : env.postRunsResult <;>
          simp [transfer_table, hsa, hdb, hj, hps, hr, resolveCred, hsf, hdf,
            mem_credReadTrace_iff]

/-- C9 (witness): a caller-supplied credential ID of 0 (and an empty-string
credential) is replaced by the default credential in the submitted
payloads. -/
theorem c9_falsy_credential_defaulting_witness :
    Ev.queriesPost 11 "q" 10 envOK.defaultCred ∈
      (query_civis envOK "q" (PyVal.pystr "warehouse") (PyVal.pyint 0)
        10 3).2 ∧
    Ev.importsPost (maybe_get_random_name envOK Option.none) "Dbsync" true
        { remote_host_id := 11, credential_id := envOK.defaultCred }
        { remote_host_id := 22, credential_id := envOK.defaultCred } ∈
      (transfer_table envOK (PyVal.pystr "warehouse") (PyVal.pystr "lake")
        "s.t" "d.t" Option.none (PyVal.pyint 0) (PyVal.pystr "") 3 []).2 :=
  c9_falsy_credential_defaulting envOK "q" (PyVal.pystr "warehouse")
    (PyVal.pyint 0) 10 3 11 rfl rfl (PyVal.pystr "warehouse")
    (PyVal.pystr "lake") "s.t" "d.t" Option.none (PyVal.pyint 0)
    (PyVal.pystr "") [] 11 22 rfl rfl rfl rfl

end Civis
